import Mathlib

/-!
Shallow embedding of the `solana-cli` tool (practice-1 and practice-2
`src/main.rs`).  External collaborators (the RPC client, the JSON parser,
the random keypair generator and the wall clock) are modelled as oracle
parameters; everything the repository itself does is translated directly.
-/

namespace SolanaCli

/-- A keypair, held in its 64-byte `to_bytes` form (secret seed followed by
the 32-byte public key, as in the ed25519 layout used by the SDK). -/
structure Keypair where
  bytes : List Nat
  deriving DecidableEq, Repr

/-- The public half of a keypair: the last 32 bytes of the 64-byte form. -/
def Keypair.pubkey (k : Keypair) : List Nat := k.bytes.drop 32

/-- Model of `Keypair::from_bytes`: the byte slice must be exactly 64 bytes
("a keypair is 64 bytes"); otherwise the constructor fails. -/
def Keypair.from_bytes (bs : List Nat) : Option Keypair :=
  if bs.length == 64 then some ⟨bs⟩ else none

/-- The base-58 alphabet used by `bs58::encode` (Bitcoin alphabet). -/
def BASE58_ALPHABET : String :=
  "123456789ABCDEFGHJKLMNPQRSTUVWXYZabcdefghijkmnopqrstuvwxyz"

/-- Big-endian byte string read as a natural number. -/
def bytesToNat (bs : List Nat) : Nat :=
  bs.foldl (fun acc b => acc * 256 + b) 0

/-- The base-58 alphabet as a list of characters, for indexing. -/
def BASE58_ALPHABET_LIST : List Char := BASE58_ALPHABET.toList

/-- Digits of `n` in base 58 (least significant first), as characters of the
base-58 alphabet.  The first argument is fuel; `n` itself is always enough
because the value strictly decreases at every division by 58. -/
def natToBase58Go : Nat → Nat → List Char
  | 0, _ => []
  | fuel + 1, n =>
    if n == 0 then []
    else BASE58_ALPHABET_LIST.getD (n % 58) (Char.ofNat 49) ::
      natToBase58Go fuel (n / 58)

/-- Base-58 encoding of a byte string, as performed by `bs58::encode`:
each leading zero byte becomes the character `1`, and the remaining value
is written in base 58, most significant digit first. -/
def bs58_encode (bs : List Nat) : String :=
  let zeros := (bs.takeWhile (fun b => b == 0)).length
  let digits := (natToBase58Go (bytesToNat bs) (bytesToNat bs)).reverse
  String.mk (List.replicate zeros (Char.ofNat 49) ++ digits)

/-- Debug formatting of a byte array, as the Rust debug formatter prints
`keypair.to_bytes()`: the elements separated by a comma and a space,
between square brackets. -/
def fmt_bytes (bs : List Nat) : String :=
  "[" ++ String.intercalate ", " (bs.map toString) ++ "]"

/-! ## Vanity keypair finder (`find_keypair`)

The wall clock is an oracle `elapsed : Nat → Nat` giving, in nanoseconds,
the value of `start_time.elapsed()` at the budget check of each iteration;
the random generator is an oracle `keys : Nat → Keypair` giving the keypair
produced by `Keypair::new` at each iteration.  The loop itself is indexed
by fuel; `none` means the fuel ran out before the loop exited. -/

/-- Nanoseconds per second, the resolution of `std::time::Duration`. -/
def NANOS_PER_SEC : Nat := 1000000000

/-- Value of `Duration::from_secs(max_minutes * 60)` in nanoseconds. -/
def max_duration_ns (max_minutes : Nat) : Nat :=
  max_minutes * 60 * NANOS_PER_SEC

/-- How a run of `find_keypair` exits: success carries the keypair, its
base-58 encoded public key and the iteration index; timeout carries the
iteration index at which the budget check fired. -/
inductive SearchOutcome where
  | success (keypair : Keypair) (public_key_base58 : String) (iter : Nat)
  | timeout (iter : Nat)
  deriving DecidableEq, Repr

/-- The iteration at which the search exited. -/
def SearchOutcome.iter : SearchOutcome → Nat
  | .success _ _ i => i
  | .timeout i => i

/-- Model of Rust's `str::starts_with` on strings: the candidate prefix's
characters are a prefix of the string's characters.  (Stated over the
character lists so that it evaluates by kernel reduction.) -/
def starts_with (s pre : String) : Bool := pre.data.isPrefixOf s.data

/-- The body of `find_keypair`: each iteration checks the elapsed time
against the budget, then generates a keypair, encodes its public key in
base 58 and tests it against the required prefix. -/
def find_keypair_loop (pfx : String) (max_minutes : Nat)
    (elapsed : Nat → Nat) (keys : Nat → Keypair) :
    Nat → Nat → Option SearchOutcome
  | 0, _ => none
  | fuel + 1, i =>
    if elapsed i > max_duration_ns max_minutes then
      some (SearchOutcome.timeout i)
    else if starts_with (bs58_encode (keys i).pubkey) pfx then
      some (SearchOutcome.success (keys i) (bs58_encode (keys i).pubkey) i)
    else
      find_keypair_loop pfx max_minutes elapsed keys fuel (i + 1)

/-- The lines `find_keypair` prints for each outcome.  The fractional
"minute(s)" figure of the success line is a floating-point rendering and is
elided; the whole-second figure is kept. -/
def find_keypair_output (pfx : String) (max_minutes : Nat)
    (elapsed : Nat → Nat) : SearchOutcome → List String
  | .timeout _ =>
    ["⏰ Time out! The public key starting with \x27" ++ pfx ++
      "\x27 was not found within " ++ toString max_minutes ++ " minutes."]
  | .success keypair public_key_base58 i =>
    ["⌛ Found matching keypair in " ++
       toString (elapsed i / NANOS_PER_SEC) ++ " second(s)!",
     "The public key is: " ++ public_key_base58,
     "The secret key is: " ++ fmt_bytes keypair.bytes,
     "✅ Finished!"]

/-- C7: the base-58 encoding applied to public keys agrees with the
standard reference encoding on fixed inputs: a 32-byte all-zero public key
encodes to exactly thirty-two `1` characters — one per leading zero byte,
with no padding ambiguity — and a public key of thirty-one zero bytes
followed by the byte 1 encodes to thirty-one `1` characters followed by
`2`, the alphabet's digit for the value 1. -/
theorem bs58_encode_matches_reference_vectors :
    bs58_encode (List.replicate 32 0) =
      "11111111111111111111111111111111" ∧
    bs58_encode (List.replicate 31 0 ++ [1]) =
      "11111111111111111111111111111112" :=
  ⟨rfl, rfl⟩

/-! ## Configuration and keypair loading -/

/-- The process environment seen by `load_keypair_from_env`: whether a
`.env` file was found by `dotenv()`, the raw value of the `SECRET_KEY`
variable, and the external JSON parser (`serde_json::from_str`) as an
oracle returning the parsed byte array, or nothing on a parse failure. -/
structure Config where
  dotenv_found : Bool
  secret_key : Option String
  parse_json_bytes : String → Option (List Nat)

/-- Model of `load_keypair_from_env` (and of the identical inline sequence
in practice-1's `load_keypair`): each `expect` is a panic carrying the given
message, modelled as the error case. -/
def load_keypair_from_env (cfg : Config) : Except String Keypair :=
  if !cfg.dotenv_found then .error ".env file not found"
  else
    match cfg.secret_key with
    | none => .error "Add SECRET_KEY to .env!"
    | some private_key =>
      match cfg.parse_json_bytes private_key with
      | none => .error "Failed to parse SECRET_KEY from .env"
      | some as_array =>
        match Keypair.from_bytes as_array with
        | none => .error "Failed to create Keypair from secret key"
        | some keypair => .ok keypair

/-! ## The RPC client as an oracle environment -/

/-- An opaque error value returned by the RPC client, carrying its debug
rendering. -/
inductive RpcError where
  | clientError (msg : String)
  deriving DecidableEq, Repr

/-- The debug rendering of an RPC error. -/
def RpcError.debug : RpcError → String
  | .clientError msg => msg

/-- A public key of the ledger, as 32 bytes. -/
abbrev Pubkey := List Nat

/-- The kinds of RPC calls the tool makes, for recording call traces. -/
inductive RpcCall where
  | getBalance
  | requestAirdrop
  | confirmTx
  | getLatestBlockhash
  | sendAndConfirm
  | getMinimumBalance
  | getAccount
  deriving DecidableEq, Repr

/-- The ledger client as an oracle: the result of each remote call.
`get_balance` is indexed by the call count (the tool performs up to two
balance queries in one operation), `confirm` by the poll count. -/
structure RpcEnv where
  get_balance : Nat → Except RpcError Nat
  request_airdrop : Except RpcError String
  confirm : Nat → Except RpcError Bool
  get_latest_blockhash : Except RpcError String
  send_and_confirm : Except RpcError String
  get_minimum_balance : Except RpcError Nat
  get_account : Pubkey → Except RpcError Unit

/-- How an operation ends: a normal return, an error value returned to the
caller (`Err` of a `Result`), or a panic with a message. -/
inductive OpResult where
  | ok
  | err (e : RpcError)
  | panic (msg : String)
  deriving DecidableEq, Repr

/-- The observable run of one operation: its console output, the trace of
RPC calls it made, and how it ended. -/
structure OpRun where
  output : List String
  rpc_calls : List RpcCall
  result : OpResult
  deriving DecidableEq, Repr

/-! ## Operations -/

/-- Decoding fuel companion of `natToBase58Go`: base-256 digits of `n`,
least significant first. -/
def natToBytesGo : Nat → Nat → List Nat
  | 0, _ => []
  | fuel + 1, n =>
    if n == 0 then [] else (n % 256) :: natToBytesGo fuel (n / 256)

/-- Base-58 decoding (`Pubkey::from_str` on the hardcoded address
constants): each leading `1` is a zero byte, the rest is read as a base-58
number and written in base 256, most significant byte first. -/
def bs58_decode (s : String) : Pubkey :=
  let val := s.toList.foldl
    (fun acc c => acc * 58 + BASE58_ALPHABET_LIST.indexOf c) 0
  let zeros := (s.toList.takeWhile (fun c => c == Char.ofNat 49)).length
  List.replicate zeros 0 ++ (natToBytesGo val val).reverse

/-- Constant `LAMPORTS_PER_SOL`. -/
def LAMPORTS_PER_SOL : Nat := 1000000000

/-- The hardcoded wallet address used by `check_balance` and `send_sol`. -/
def WALLET_ADDRESS : String := "8cUNp6LJGfjN3M1mwk537CfY2WBtYUYQNnf4hVtPx7AB"

/-- The hardcoded token mint address used by the token operations. -/
def TOKEN_MINT_ADDRESS : String := "ExJmrjcJj3FuHNvswLkLmAxiEBGcdW5g9WnZqb8VjCiz"

/-- The hardcoded token mint address as bytes. -/
def TOKEN_MINT_ACCOUNT : Pubkey := bs58_decode TOKEN_MINT_ADDRESS

/-- Operation `generate_keypair`; the fresh keypair produced by `Keypair::new` is the
oracle argument. -/
def generate_keypair (keypair : Keypair) : OpRun :=
  { output := ["The public key is: " ++ bs58_encode keypair.pubkey,
               "The secret key is: " ++ fmt_bytes keypair.bytes,
               "✅ Finished!"],
    rpc_calls := [], result := .ok }

/-- Operation `load_keypair`: load the keypair from the environment and print its
public key. -/
def load_keypair (cfg : Config) : OpRun :=
  match load_keypair_from_env cfg with
  | .error msg => { output := [], rpc_calls := [], result := .panic msg }
  | .ok keypair =>
    { output := ["Public key: " ++ bs58_encode keypair.pubkey],
      rpc_calls := [], result := .ok }

/-- The confirmation-polling loop inside `airdrop_if_required`: query the
confirmation status at `processed` commitment, break when confirmed,
propagate an error, and otherwise loop again immediately.  `none` means the
fuel ran out with the loop still running. -/
def confirm_loop (env : RpcEnv) :
    Nat → Nat → Option (List RpcCall × Except RpcError Unit)
  | 0, _ => none
  | fuel + 1, j =>
    match env.confirm j with
    | .error e => some ([.confirmTx], .error e)
    | .ok true => some ([.confirmTx], .ok ())
    | .ok false =>
      match confirm_loop env fuel (j + 1) with
      | none => none
      | some (calls, r) => some (.confirmTx :: calls, r)

/-- Value of `(1.5 * LAMPORTS_PER_SOL as f64) as u64`, the minimum balance below
which `check_balance` requests an airdrop (the cast is exact). -/
def MIN_BALANCE_LAMPORTS : Nat := 1500000000

/-- Model of `airdrop_if_required` with the amounts `check_balance` passes: query
the balance, and when it is below the minimum, request an airdrop and poll
until confirmed.  Returns the printed lines, the RPC trace and the
`Result`; `none` means the confirmation poll never finished. -/
def airdrop_if_required (env : RpcEnv) (fuel : Nat) :
    Option (List String × List RpcCall × Except RpcError Unit) :=
  match env.get_balance 0 with
  | .error e => some ([], [.getBalance], .error e)
  | .ok current_balance =>
    if current_balance < MIN_BALANCE_LAMPORTS then
      match env.request_airdrop with
      | .error e =>
        some (["Requesting airdrop..."], [.getBalance, .requestAirdrop],
          .error e)
      | .ok _signature =>
        match confirm_loop env fuel 0 with
        | none => none
        | some (calls, .error e) =>
          some (["Requesting airdrop..."],
            [.getBalance, .requestAirdrop] ++ calls, .error e)
        | some (calls, .ok _) =>
          some (["Requesting airdrop...", "Airdrop complete"],
            [.getBalance, .requestAirdrop] ++ calls, .ok ())
    else some (["No airdrop required"], [.getBalance], .ok ())

/-- Operation `check_balance`: run `airdrop_if_required` (printing its error, if
any), then query the balance again and `unwrap()` the result — a panic
when that query fails.  The SOL figure of the balance line is a
floating-point division and is elided; the lamport value is printed in its
place. -/
def check_balance (env : RpcEnv) (fuel : Nat) : Option OpRun :=
  match airdrop_if_required env fuel with
  | none => none
  | some (aout, acalls, ares) =>
    let out1 := ["⚡️ Connected to devnet"] ++ aout ++
      (match ares with
       | .error e => ["Airdrop failed due to: " ++ e.debug]
       | .ok _ => [])
    match env.get_balance 1 with
    | .error e =>
      some { output := out1, rpc_calls := acalls ++ [.getBalance],
             result := .panic ("called Result::unwrap on an Err value: " ++
               e.debug) }
    | .ok balance_in_lamports =>
      some { output := out1 ++
               ["💰 The balance for the wallet at address " ++
                 WALLET_ADDRESS ++ " is: " ++
                 toString balance_in_lamports ++ " lamports"],
             rpc_calls := acalls ++ [.getBalance], result := .ok }

/-- Operation `send_sol`: load the keypair, build the transfer-plus-memo transaction,
fetch a blockhash, sign and submit.  Any `?` error is returned to the
caller. -/
def send_sol (cfg : Config) (env : RpcEnv) : OpRun :=
  match load_keypair_from_env cfg with
  | .error msg => { output := [], rpc_calls := [], result := .panic msg }
  | .ok sender =>
    let out1 := ["🔑 Our public key is: " ++ bs58_encode sender.pubkey,
                 "💸 Attempting to send 0.01 SOL to " ++ WALLET_ADDRESS ++
                   "...",
                 "📝 memo is: Hello from Solana!"]
    match env.get_latest_blockhash with
    | .error e =>
      { output := out1, rpc_calls := [.getLatestBlockhash],
        result := .err e }
    | .ok _recent_blockhash =>
      match env.send_and_confirm with
      | .error e =>
        { output := out1,
          rpc_calls := [.getLatestBlockhash, .sendAndConfirm],
          result := .err e }
      | .ok signature =>
        { output := out1 ++
            ["✅ Transaction confirmed, signature: " ++ signature ++ "!"],
          rpc_calls := [.getLatestBlockhash, .sendAndConfirm],
          result := .ok }

/-- Helper `create_mint`: the fresh mint-account keypair is the oracle argument;
query the rent-exempt balance, fetch a blockhash, sign and submit, and
return the mint public key. -/
def create_mint (env : RpcEnv) (mint_account : Keypair) :
    List RpcCall × Except RpcError Pubkey :=
  match env.get_minimum_balance with
  | .error e => ([.getMinimumBalance], .error e)
  | .ok _rent =>
    match env.get_latest_blockhash with
    | .error e => ([.getMinimumBalance, .getLatestBlockhash], .error e)
    | .ok _bh =>
      match env.send_and_confirm with
      | .error e =>
        ([.getMinimumBalance, .getLatestBlockhash, .sendAndConfirm],
          .error e)
      | .ok _sig =>
        ([.getMinimumBalance, .getLatestBlockhash, .sendAndConfirm],
          .ok mint_account.pubkey)

/-- Operation `create_token_mint`: load the keypair, create the mint and print its
explorer link. -/
def create_token_mint (cfg : Config) (env : RpcEnv)
    (mint_account : Keypair) : OpRun :=
  match load_keypair_from_env cfg with
  | .error msg => { output := [], rpc_calls := [], result := .panic msg }
  | .ok sender =>
    let out1 := ["🔑 Our public key is: " ++ bs58_encode sender.pubkey]
    match create_mint env mint_account with
    | (calls, .error e) =>
      { output := out1, rpc_calls := calls, result := .err e }
    | (calls, .ok mint_pubkey) =>
      { output := out1 ++
          ["✅ Token Mint: https://explorer.solana.com/address/" ++
            bs58_encode mint_pubkey ++ "?cluster=devnet"],
        rpc_calls := calls, result := .ok }

/-- Helper `get_or_create_associated_token_account`: derive the associated token
address (the external derivation is the oracle argument `derive`), and when
the account-existence query does not succeed, build, sign and submit the
creating transaction.  The derived address is returned in either case. -/
def get_or_create_associated_token_account
    (derive : Pubkey → Pubkey → Pubkey) (env : RpcEnv)
    (_sender : Keypair) (mint recipient : Pubkey) :
    List RpcCall × Except RpcError Pubkey :=
  let associated_token_address := derive recipient mint
  match env.get_account associated_token_address with
  | .ok _ => ([.getAccount], .ok associated_token_address)
  | .error _ =>
    match env.get_latest_blockhash with
    | .error e => ([.getAccount, .getLatestBlockhash], .error e)
    | .ok _bh =>
      match env.send_and_confirm with
      | .error e =>
        ([.getAccount, .getLatestBlockhash, .sendAndConfirm], .error e)
      | .ok _sig =>
        ([.getAccount, .getLatestBlockhash, .sendAndConfirm],
          .ok associated_token_address)

/-- Operation `create_token_account`: load the keypair, get or create the associated
token account for the hardcoded mint and recipient, and print it. -/
def create_token_account (cfg : Config) (env : RpcEnv)
    (derive : Pubkey → Pubkey → Pubkey) : OpRun :=
  match load_keypair_from_env cfg with
  | .error msg => { output := [], rpc_calls := [], result := .panic msg }
  | .ok sender =>
    let out1 := ["🔑 Our public key is: " ++ bs58_encode sender.pubkey]
    match get_or_create_associated_token_account derive env sender
        TOKEN_MINT_ACCOUNT (bs58_decode WALLET_ADDRESS) with
    | (calls, .error e) =>
      { output := out1, rpc_calls := calls, result := .err e }
    | (calls, .ok account_pubkey) =>
      { output := out1 ++
          ["Token Account: " ++ bs58_encode account_pubkey,
           "✅ Created token account: https://explorer.solana.com/address/"
             ++ bs58_encode account_pubkey ++ "?cluster=devnet"],
        rpc_calls := calls, result := .ok }

/-- Operation `mint_tokens`: load the keypair, build the mint-to transaction for the
hardcoded mint and recipient account, fetch a blockhash, sign and submit,
and print the transaction link. -/
def mint_tokens (cfg : Config) (env : RpcEnv) : OpRun :=
  match load_keypair_from_env cfg with
  | .error msg => { output := [], rpc_calls := [], result := .panic msg }
  | .ok _sender =>
    match env.get_latest_blockhash with
    | .error e =>
      { output := [], rpc_calls := [.getLatestBlockhash], result := .err e }
    | .ok _bh =>
      match env.send_and_confirm with
      | .error e =>
        { output := [], rpc_calls := [.getLatestBlockhash, .sendAndConfirm],
          result := .err e }
      | .ok signature =>
        { output :=
            ["✅ Success! Mint Token Transaction: " ++
              "https://explorer.solana.com/transaction/" ++ signature ++
              "?cluster=devnet"],
          rpc_calls := [.getLatestBlockhash, .sendAndConfirm],
          result := .ok }

/-- Operation `create_token_metadata`: load the keypair, build the metadata-account
transaction for the hardcoded mint, fetch a blockhash, sign and submit,
and print the mint link. -/
def create_token_metadata (cfg : Config) (env : RpcEnv) : OpRun :=
  match load_keypair_from_env cfg with
  | .error msg => { output := [], rpc_calls := [], result := .panic msg }
  | .ok _user =>
    match env.get_latest_blockhash with
    | .error e =>
      { output := [], rpc_calls := [.getLatestBlockhash], result := .err e }
    | .ok _bh =>
      match env.send_and_confirm with
      | .error e =>
        { output := [], rpc_calls := [.getLatestBlockhash, .sendAndConfirm],
          result := .err e }
      | .ok _sig =>
        { output :=
            ["✅ Look at the token mint again: " ++
              "https://explorer.solana.com/address/" ++
              bs58_encode TOKEN_MINT_ACCOUNT ++ "?cluster=devnet"],
          rpc_calls := [.getLatestBlockhash, .sendAndConfirm],
          result := .ok }

/-- Operation `find_keypair`: run the search loop (it starts at
iteration 0) and print the outcome's lines; it makes no RPC calls. -/
def find_keypair (pfx : String) (max_minutes : Nat) (elapsed : Nat → Nat)
    (keys : Nat → Keypair) (fuel : Nat) : Option OpRun :=
  (find_keypair_loop pfx max_minutes elapsed keys fuel 0).map fun r =>
    { output := find_keypair_output pfx max_minutes elapsed r,
      rpc_calls := [], result := .ok }

/-! ## The command-line surface (`main`) -/

/-- The nine mutually independent boolean operation flags. -/
structure Flags where
  generate_keypair : Bool
  load_keypair : Bool
  check_balance : Bool
  find_keypair : Bool
  send_sol : Bool
  create_token_mint : Bool
  create_token_account : Bool
  mint_tokens : Bool
  create_token_metadata : Bool
  deriving DecidableEq, Repr

/-- The flags record with no flag set. -/
def Flags.none : Flags := ⟨false, false, false, false, false, false,
  false, false, false⟩

/-- Everything outside the process that a run can observe: the
configuration environment, the ledger client, the random keypair stream,
the wall clock, and the external associated-token-address derivation. -/
structure World where
  cfg : Config
  rpc : RpcEnv
  keys : Nat → Keypair
  elapsed : Nat → Nat
  ata_derive : Pubkey → Pubkey → Pubkey

/-- The `if let Err(e) = op() \x7b println!("... failed due to: ...", e) \x7d`
wrapping `main` puts around each `Result`-returning operation: the error is
printed and the process goes on to exit normally. -/
def main_wrap (tag : String) (r : OpRun) : OpRun :=
  match r.result with
  | .err e => { output := r.output ++ [tag ++ e.debug],
                rpc_calls := r.rpc_calls, result := .ok }
  | _ => r

/-- Model of `main`: the `if`/`else if` chain over the flags.  At most one operation
runs, the first whose flag is set; with no flag set, nothing happens and
the process exits normally.  `none` means the selected operation never
finished within the fuel. -/
def main_run (flags : Flags) (w : World) (fuel : Nat) : Option OpRun :=
  if flags.generate_keypair then some (generate_keypair (w.keys 0))
  else if flags.load_keypair then some (load_keypair w.cfg)
  else if flags.check_balance then check_balance w.rpc fuel
  else if flags.find_keypair then
    find_keypair "Lev" 3 w.elapsed w.keys fuel
  else if flags.send_sol then
    some (main_wrap "Sending SOL failed due to: " (send_sol w.cfg w.rpc))
  else if flags.create_token_mint then
    some (main_wrap "Creating token mint failed due to: "
      (create_token_mint w.cfg w.rpc (w.keys 0)))
  else if flags.create_token_account then
    some (main_wrap "Creating token account failed due to: "
      (create_token_account w.cfg w.rpc w.ata_derive))
  else if flags.mint_tokens then
    some (main_wrap "Minting tokens failed due to: "
      (mint_tokens w.cfg w.rpc))
  else if flags.create_token_metadata then
    some (main_wrap "Creating token metadata failed due to: "
      (create_token_metadata w.cfg w.rpc))
  else some { output := [], rpc_calls := [], result := .ok }

/-- The operations, named, in the order `main` tests their flags. -/
inductive OpName where
  | generateKeypair | loadKeypair | checkBalance | findKeypair | sendSol
  | createTokenMint | createTokenAccount | mintTokens | createTokenMetadata
  deriving DecidableEq, Repr

/-- Whether the flag of a named operation is set. -/
def Flags.get (flags : Flags) : OpName → Bool
  | .generateKeypair => flags.generate_keypair
  | .loadKeypair => flags.load_keypair
  | .checkBalance => flags.check_balance
  | .findKeypair => flags.find_keypair
  | .sendSol => flags.send_sol
  | .createTokenMint => flags.create_token_mint
  | .createTokenAccount => flags.create_token_account
  | .mintTokens => flags.mint_tokens
  | .createTokenMetadata => flags.create_token_metadata

/-- The fixed priority order in which `main` tests the flags. -/
def opOrder : List OpName :=
  [.generateKeypair, .loadKeypair, .checkBalance, .findKeypair, .sendSol,
   .createTokenMint, .createTokenAccount, .mintTokens,
   .createTokenMetadata]

/-- Run a single named operation exactly as the corresponding branch of
`main` does. -/
def run_named_op (op : OpName) (w : World) (fuel : Nat) : Option OpRun :=
  match op with
  | .generateKeypair => some (generate_keypair (w.keys 0))
  | .loadKeypair => some (load_keypair w.cfg)
  | .checkBalance => check_balance w.rpc fuel
  | .findKeypair => find_keypair "Lev" 3 w.elapsed w.keys fuel
  | .sendSol =>
    some (main_wrap "Sending SOL failed due to: " (send_sol w.cfg w.rpc))
  | .createTokenMint =>
    some (main_wrap "Creating token mint failed due to: "
      (create_token_mint w.cfg w.rpc (w.keys 0)))
  | .createTokenAccount =>
    some (main_wrap "Creating token account failed due to: "
      (create_token_account w.cfg w.rpc w.ata_derive))
  | .mintTokens =>
    some (main_wrap "Minting tokens failed due to: "
      (mint_tokens w.cfg w.rpc))
  | .createTokenMetadata =>
    some (main_wrap "Creating token metadata failed due to: "
      (create_token_metadata w.cfg w.rpc))

/-- The first set flag in the priority order, if any. -/
def first_set_flag (flags : Flags) : Option OpName :=
  opOrder.find? flags.get

/-! ## Helper lemmas about the search loop -/

/-- With a strictly advancing clock, the loop exits once the fuel covers
the whole budget: fuel `max_duration_ns + 2 - elapsed i` always suffices. -/
theorem find_keypair_loop_exits (pfx : String) (max_minutes : Nat)
    (elapsed : Nat → Nat) (keys : Nat → Keypair)
    (hstep : ∀ i, elapsed i < elapsed (i + 1)) :
    ∀ fuel i, max_duration_ns max_minutes + 2 ≤ elapsed i + fuel →
      1 ≤ fuel →
      (find_keypair_loop pfx max_minutes elapsed keys fuel i).isSome := by
  intro fuel
  induction fuel with
  | zero => intro i _ h1; omega
  | succ f ih =>
    intro i hle _
    by_cases hb : elapsed i > max_duration_ns max_minutes
    · simp [find_keypair_loop, hb]
    · by_cases hm : starts_with (bs58_encode (keys i).pubkey) pfx = true
      · simp [find_keypair_loop, hb, hm]
      · have hrec := ih (i + 1) (by have := hstep i; omega) (by omega)
        simpa [find_keypair_loop, hb, hm] using hrec

/-- When every iteration advances the clock by at most `D` nanoseconds and
the loop is entered with the deadline-plus-slack not yet exceeded, the
elapsed time at the exit iteration stays within deadline plus `D`. -/
theorem find_keypair_loop_exit_le (pfx : String) (max_minutes : Nat)
    (elapsed : Nat → Nat) (keys : Nat → Keypair) (D : Nat)
    (hD : ∀ i, elapsed (i + 1) ≤ elapsed i + D) :
    ∀ fuel i r, elapsed i ≤ max_duration_ns max_minutes + D →
      find_keypair_loop pfx max_minutes elapsed keys fuel i = some r →
      elapsed r.iter ≤ max_duration_ns max_minutes + D := by
  intro fuel
  induction fuel with
  | zero => intro i r _ hr; simp [find_keypair_loop] at hr
  | succ f ih =>
    intro i r h hr
    by_cases hb : elapsed i > max_duration_ns max_minutes
    · simp [find_keypair_loop, hb] at hr
      subst hr
      exact h
    · by_cases hm : starts_with (bs58_encode (keys i).pubkey) pfx = true
      · simp [find_keypair_loop, hb, hm] at hr
        subst hr
        simp [SearchOutcome.iter]
        omega
      · simp [find_keypair_loop, hb, hm] at hr
        exact ih (i + 1) r (by have := hD i; omega) hr

/-- When the loop reaches iteration `i + k` (every earlier iteration is
within budget and fails the prefix test), a within-budget match at `i + k`
makes the loop return success with exactly that keypair. -/
theorem find_keypair_loop_success_at (pfx : String) (max_minutes : Nat)
    (elapsed : Nat → Nat) (keys : Nat → Keypair) :
    ∀ k fuel i, k < fuel →
      (∀ j, j < k → elapsed (i + j) ≤ max_duration_ns max_minutes ∧
        starts_with (bs58_encode (keys (i + j)).pubkey) pfx = false) →
      elapsed (i + k) ≤ max_duration_ns max_minutes →
      starts_with (bs58_encode (keys (i + k)).pubkey) pfx = true →
      find_keypair_loop pfx max_minutes elapsed keys fuel i =
        some (SearchOutcome.success (keys (i + k))
          (bs58_encode (keys (i + k)).pubkey) (i + k)) := by
  intro k
  induction k with
  | zero =>
    intro fuel i hk _ hbudget hmatch
    obtain ⟨f, rfl⟩ : ∃ f, fuel = f + 1 := ⟨fuel - 1, by omega⟩
    rw [Nat.add_zero] at hbudget hmatch ⊢
    simp [find_keypair_loop, hmatch, Nat.not_lt.mpr hbudget]
  | succ k ih =>
    intro fuel i hk hbefore hbudget hmatch
    obtain ⟨f, rfl⟩ : ∃ f, fuel = f + 1 := ⟨fuel - 1, by omega⟩
    have h0 := hbefore 0 (by omega)
    rw [Nat.add_zero] at h0
    rw [find_keypair_loop, if_neg (by exact Nat.not_lt.mpr h0.1)]
    rw [if_neg (by simp [h0.2])]
    have heq : i + 1 + k = i + (k + 1) := by omega
    have hrec := ih f (i + 1) (by omega)
      (fun j hj => by
        have hb := hbefore (j + 1) (by omega)
        have : i + (j + 1) = i + 1 + j := by omega
        rwa [this] at hb)
      (by rw [heq]; exact hbudget) (by rw [heq]; exact hmatch)
    rw [heq] at hrec
    exact hrec

/-- When the loop reaches iteration `i + k` and the budget check fires
there, the loop returns timeout at that iteration — even when that
iteration's key would have matched, since the budget check comes first. -/
theorem find_keypair_loop_timeout_at (pfx : String) (max_minutes : Nat)
    (elapsed : Nat → Nat) (keys : Nat → Keypair) :
    ∀ k fuel i, k < fuel →
      (∀ j, j < k → elapsed (i + j) ≤ max_duration_ns max_minutes ∧
        starts_with (bs58_encode (keys (i + j)).pubkey) pfx = false) →
      max_duration_ns max_minutes < elapsed (i + k) →
      find_keypair_loop pfx max_minutes elapsed keys fuel i =
        some (SearchOutcome.timeout (i + k)) := by
  intro k
  induction k with
  | zero =>
    intro fuel i hk _ hover
    obtain ⟨f, rfl⟩ : ∃ f, fuel = f + 1 := ⟨fuel - 1, by omega⟩
    rw [Nat.add_zero] at hover ⊢
    simp [find_keypair_loop, hover]
  | succ k ih =>
    intro fuel i hk hbefore hover
    obtain ⟨f, rfl⟩ : ∃ f, fuel = f + 1 := ⟨fuel - 1, by omega⟩
    have h0 := hbefore 0 (by omega)
    rw [Nat.add_zero] at h0
    rw [find_keypair_loop, if_neg (by exact Nat.not_lt.mpr h0.1)]
    rw [if_neg (by simp [h0.2])]
    have heq : i + 1 + k = i + (k + 1) := by omega
    have hrec := ih f (i + 1) (by omega)
      (fun j hj => by
        have hb := hbefore (j + 1) (by omega)
        have : i + (j + 1) = i + 1 + j := by omega
        rwa [this] at hb)
      (by rw [heq]; exact hover)
    rw [heq] at hrec
    exact hrec

/-! ## Claims about the vanity search -/

/-- C1: for every prefix and every positive max duration in minutes, under
a clock that strictly advances at every iteration and gains at most `D`
nanoseconds per key-generation-and-encoding iteration (with the first
budget check within `D` of the start), `find_keypair` terminates — fuel
`max_duration_ns + 2` always suffices — and the elapsed time at the exit
iteration is at most the deadline plus `D`, one additional iteration's
time, whether or not a matching key was found. -/
theorem find_keypair_terminates_within_budget
    (pfx : String) (max_minutes D : Nat) (elapsed : Nat → Nat)
    (keys : Nat → Keypair)
    (_hpos : 0 < max_minutes)
    (hstep : ∀ i, elapsed i < elapsed (i + 1))
    (hD : ∀ i, elapsed (i + 1) ≤ elapsed i + D)
    (h0 : elapsed 0 ≤ D) :
    ∃ r, find_keypair_loop pfx max_minutes elapsed keys
        (max_duration_ns max_minutes + 2) 0 = some r ∧
      elapsed r.iter ≤ max_duration_ns max_minutes + D := by
  have hs := find_keypair_loop_exits pfx max_minutes elapsed keys hstep
    (max_duration_ns max_minutes + 2) 0 (by omega) (by omega)
  obtain ⟨r, hr⟩ := Option.isSome_iff_exists.mp hs
  exact ⟨r, hr, find_keypair_loop_exit_le pfx max_minutes elapsed keys D hD
    (max_duration_ns max_minutes + 2) 0 r (by omega) hr⟩

/-- Witness for C1: prefix `"Lev"`, one minute, a clock advancing one
nanosecond per iteration. -/
theorem find_keypair_terminates_within_budget_witness :
    ∃ r, find_keypair_loop "Lev" 1 (fun i => i + 1)
        (fun _ => ⟨List.replicate 64 0⟩) (max_duration_ns 1 + 2) 0 =
          some r ∧
      (fun i => i + 1) r.iter ≤ max_duration_ns 1 + 2 :=
  find_keypair_terminates_within_budget "Lev" 1 2 (fun i => i + 1)
    (fun _ => ⟨List.replicate 64 0⟩) (by omega)
    (fun i => by show i + 1 < i + 1 + 1; omega)
    (fun i => by show i + 1 + 1 ≤ i + 1 + 2; omega)
    (by show 0 + 1 ≤ 2; omega)

/-- C2: the loop tests the budget before generating and testing the key —
when the loop reaches iteration `i` (all earlier iterations were within
budget and failed the prefix test), a budget overrun at `i` yields timeout
at `i` even if that iteration's key would match; and otherwise, whenever
the freshly generated keypair's base-58-encoded public key starts with the
prefix, the search returns success on that same iteration with exactly
that keypair, and its printed lines include the encoded public key and the
secret-key bytes. -/
theorem find_keypair_reports_match_on_its_iteration
    (pfx : String) (max_minutes : Nat) (elapsed : Nat → Nat)
    (keys : Nat → Keypair) (i fuel : Nat)
    (hfuel : i < fuel)
    (hreach : ∀ j, j < i → elapsed j ≤ max_duration_ns max_minutes ∧
      starts_with (bs58_encode (keys j).pubkey) pfx = false) :
    (elapsed i ≤ max_duration_ns max_minutes →
      starts_with (bs58_encode (keys i).pubkey) pfx = true →
      find_keypair_loop pfx max_minutes elapsed keys fuel 0 =
        some (SearchOutcome.success (keys i)
          (bs58_encode (keys i).pubkey) i) ∧
      ("The public key is: " ++ bs58_encode (keys i).pubkey) ∈
        find_keypair_output pfx max_minutes elapsed
          (SearchOutcome.success (keys i) (bs58_encode (keys i).pubkey) i) ∧
      ("The secret key is: " ++ fmt_bytes (keys i).bytes) ∈
        find_keypair_output pfx max_minutes elapsed
          (SearchOutcome.success (keys i) (bs58_encode (keys i).pubkey) i))
    ∧
    (max_duration_ns max_minutes < elapsed i →
      find_keypair_loop pfx max_minutes elapsed keys fuel 0 =
        some (SearchOutcome.timeout i)) := by
  constructor
  · intro hbudget hmatch
    refine ⟨?_, by simp [find_keypair_output], by simp [find_keypair_output]⟩
    have := find_keypair_loop_success_at pfx max_minutes elapsed keys i fuel
      0 hfuel (fun j hj => by simpa using hreach j hj) (by simpa using hbudget)
      (by simpa using hmatch)
    simpa using this
  · intro hover
    have := find_keypair_loop_timeout_at pfx max_minutes elapsed keys i fuel
      0 hfuel (fun j hj => by simpa using hreach j hj) (by simpa using hover)
    simpa using this

/-- Witness for C2: the empty prefix matches the first generated key, so
the search succeeds at iteration 0 with that key. -/
theorem find_keypair_reports_match_on_its_iteration_witness :
    find_keypair_loop "" 1 (fun _ => 0) (fun _ => ⟨List.replicate 64 0⟩)
        1 0 =
      some (SearchOutcome.success ⟨List.replicate 64 0⟩
        (bs58_encode (Keypair.pubkey ⟨List.replicate 64 0⟩)) 0) := by
  have h := (find_keypair_reports_match_on_its_iteration "" 1 (fun _ => 0)
    (fun _ => ⟨List.replicate 64 0⟩) 0 1 (by omega)
    (fun j hj => absurd hj (by omega))).1 (by omega) (by decide)
  exact h.1

/-- C3: with a max duration of zero minutes and a clock that has strictly
advanced by the first budget check (a monotonic clock reads a positive
elapsed time there), the very first budget check fires: the search returns
timeout at iteration 0 — never success, whatever the keypair stream — and
prints the timeout message naming the prefix and `0` minutes. -/
theorem find_keypair_zero_minutes_times_out
    (pfx : String) (elapsed : Nat → Nat) (keys : Nat → Keypair) (fuel : Nat)
    (hclock : 1 ≤ elapsed 0) (hfuel : 1 ≤ fuel) :
    find_keypair_loop pfx 0 elapsed keys fuel 0 =
      some (SearchOutcome.timeout 0) ∧
    find_keypair_output pfx 0 elapsed (SearchOutcome.timeout 0) =
      ["⏰ Time out! The public key starting with \x27" ++ pfx ++
        "\x27 was not found within 0 minutes."] := by
  constructor
  · obtain ⟨f, rfl⟩ : ∃ f, fuel = f + 1 := ⟨fuel - 1, by omega⟩
    have hover : max_duration_ns 0 < elapsed 0 := by
      have : max_duration_ns 0 = 0 := rfl
      omega
    simp [find_keypair_loop, hover]
  · simp [find_keypair_output, String.append_assoc]
    congr 1

/-- Witness for C3: prefix `"AAA"`, zero minutes, a clock reading one
nanosecond at the first check. -/
theorem find_keypair_zero_minutes_times_out_witness :
    find_keypair_loop "AAA" 0 (fun _ => 1)
        (fun _ => ⟨List.replicate 64 0⟩) 1 0 =
      some (SearchOutcome.timeout 0) ∧
    find_keypair_output "AAA" 0 (fun _ => 1) (SearchOutcome.timeout 0) =
      ["⏰ Time out! The public key starting with \x27" ++ "AAA" ++
        "\x27 was not found within 0 minutes."] :=
  find_keypair_zero_minutes_times_out "AAA" (fun _ => 1)
    (fun _ => ⟨List.replicate 64 0⟩) 1 (by show 1 ≤ 1; omega) (by omega)

/-! ## Concrete environments used by witnesses and counterexamples -/

/-- A ledger client whose every call fails with the given error. -/
def rpc_env_err (e : RpcError) : RpcEnv :=
  { get_balance := fun _ => .error e, request_airdrop := .error e,
    confirm := fun _ => .error e, get_latest_blockhash := .error e,
    send_and_confirm := .error e, get_minimum_balance := .error e,
    get_account := fun _ => .error e }

/-- A ledger client whose every call succeeds, with a comfortable balance
and a transaction that confirms on the first poll. -/
def rpc_env_ok : RpcEnv :=
  { get_balance := fun _ => .ok 2000000000, request_airdrop := .ok "sig",
    confirm := fun _ => .ok true, get_latest_blockhash := .ok "blockhash",
    send_and_confirm := .ok "sig", get_minimum_balance := .ok 1000,
    get_account := fun _ => .ok () }

/-- A ledger client with an empty balance whose airdrop transaction is
never reported confirmed. -/
def rpc_env_never_confirms : RpcEnv :=
  { get_balance := fun _ => .ok 0, request_airdrop := .ok "sig",
    confirm := fun _ => .ok false, get_latest_blockhash := .ok "blockhash",
    send_and_confirm := .ok "sig", get_minimum_balance := .ok 1000,
    get_account := fun _ => .ok () }

/-- A configuration whose secret parses into 64 zero bytes. -/
def cfg_ok : Config :=
  { dotenv_found := true, secret_key := some "[0,0]",
    parse_json_bytes := fun _ => some (List.replicate 64 0) }

/-- A configuration whose `SECRET_KEY` value is not valid JSON: the parse
oracle rejects it. -/
def cfg_bad_json : Config :=
  { dotenv_found := true, secret_key := some "not json",
    parse_json_bytes := fun _ => none }

/-! ## Claims about configuration loading and error handling -/

/-- C5: whenever loading the keypair from the environment fails — missing
`.env`, missing `SECRET_KEY`, a JSON parse failure, or a byte array that is
not a 64-byte keypair — every operation that loads the keypair panics
immediately with that configuration message (the `panic` outcome, distinct
from the `err` outcome network errors produce), having made no RPC call
and printed nothing. -/
theorem load_failure_panics_before_network
    (cfg : Config) (env : RpcEnv) (derive : Pubkey → Pubkey → Pubkey)
    (mint_account : Keypair) (msg : String)
    (h : load_keypair_from_env cfg = .error msg) :
    load_keypair cfg = ⟨[], [], .panic msg⟩ ∧
    send_sol cfg env = ⟨[], [], .panic msg⟩ ∧
    create_token_mint cfg env mint_account = ⟨[], [], .panic msg⟩ ∧
    create_token_account cfg env derive = ⟨[], [], .panic msg⟩ ∧
    mint_tokens cfg env = ⟨[], [], .panic msg⟩ ∧
    create_token_metadata cfg env = ⟨[], [], .panic msg⟩ := by
  refine ⟨?_, ?_, ?_, ?_, ?_, ?_⟩ <;>
    simp [load_keypair, send_sol, create_token_mint, create_token_account,
      mint_tokens, create_token_metadata, h]

/-- Witness for C5: a `SECRET_KEY` value the JSON parser rejects. -/
theorem load_failure_panics_before_network_witness :
    load_keypair cfg_bad_json =
      ⟨[], [], .panic "Failed to parse SECRET_KEY from .env"⟩ ∧
    send_sol cfg_bad_json rpc_env_ok =
      ⟨[], [], .panic "Failed to parse SECRET_KEY from .env"⟩ ∧
    create_token_mint cfg_bad_json rpc_env_ok ⟨List.replicate 64 0⟩ =
      ⟨[], [], .panic "Failed to parse SECRET_KEY from .env"⟩ ∧
    create_token_account cfg_bad_json rpc_env_ok (fun r m => r ++ m) =
      ⟨[], [], .panic "Failed to parse SECRET_KEY from .env"⟩ ∧
    mint_tokens cfg_bad_json rpc_env_ok =
      ⟨[], [], .panic "Failed to parse SECRET_KEY from .env"⟩ ∧
    create_token_metadata cfg_bad_json rpc_env_ok =
      ⟨[], [], .panic "Failed to parse SECRET_KEY from .env"⟩ :=
  load_failure_panics_before_network cfg_bad_json rpc_env_ok
    (fun r m => r ++ m) ⟨List.replicate 64 0⟩
    "Failed to parse SECRET_KEY from .env" rfl

/-- Divergence helper for C6: when every confirmation poll answers
unconfirmed, the poll loop consumes any amount of fuel without exiting. -/
theorem confirm_loop_none_of_never_confirmed (env : RpcEnv)
    (h : ∀ j, env.confirm j = .ok false) :
    ∀ fuel j, confirm_loop env fuel j = none := by
  intro fuel
  induction fuel with
  | zero => intro j; rfl
  | succ f ih => intro j; simp [confirm_loop, h j, ih]

/-- C6: in `airdrop_if_required`, when the balance is low, the airdrop
request is accepted, and the confirmation query answers unconfirmed at
every poll (and never errors), the polling loop never terminates: there is
no backoff and no iteration or time cap, so no amount of fuel makes the
call return — the calling thread blocks forever. -/
theorem airdrop_confirm_poll_never_terminates
    (env : RpcEnv) (balance : Nat) (signature : String) (fuel : Nat)
    (hbal : env.get_balance 0 = .ok balance)
    (hlow : balance < MIN_BALANCE_LAMPORTS)
    (hsig : env.request_airdrop = .ok signature)
    (hconf : ∀ j, env.confirm j = .ok false) :
    airdrop_if_required env fuel = none := by
  rw [airdrop_if_required, hbal]
  simp only [hlow, if_true, hsig]
  rw [confirm_loop_none_of_never_confirmed env hconf fuel 0]

/-- Witness for C6: an empty balance, an accepted airdrop and a
confirmation query that always answers unconfirmed. -/
theorem airdrop_confirm_poll_never_terminates_witness :
    airdrop_if_required rpc_env_never_confirms 1000 = none :=
  airdrop_confirm_poll_never_terminates rpc_env_never_confirms 0 "sig"
    1000 rfl (by decide) rfl (fun _ => rfl)

/-- Flags selecting only `--send-sol`. -/
def flags_send_sol : Flags :=
  ⟨false, false, false, false, true, false, false, false, false⟩

/-- Flags selecting only `--create-token-mint`. -/
def flags_create_token_mint : Flags :=
  ⟨false, false, false, false, false, true, false, false, false⟩

/-- Flags selecting only `--create-token-account`. -/
def flags_create_token_account : Flags :=
  ⟨false, false, false, false, false, false, true, false, false⟩

/-- Flags selecting only `--mint-tokens`. -/
def flags_mint_tokens : Flags :=
  ⟨false, false, false, false, false, false, false, true, false⟩

/-- Flags selecting only `--create-token-metadata`. -/
def flags_create_token_metadata : Flags :=
  ⟨false, false, false, false, false, false, false, false, true⟩

/-- Counterexample to C4: when the balance query fails, `check_balance`
does not surface the error as a formatted failure message — it calls
`unwrap()` on the `Err` and panics, so the process crashes instead of
exiting normally.  (The airdrop step's error is printed, as the claim
says; the direct balance query's is not.) -/
theorem check_balance_panics_on_balance_query_error :
    check_balance (rpc_env_err (RpcError.clientError "connection refused"))
        1 =
      some ⟨["⚡️ Connected to devnet",
             "Airdrop failed due to: connection refused"],
            [RpcCall.getBalance, RpcCall.getBalance],
            .panic
              "called Result::unwrap on an Err value: connection refused"⟩
  := rfl

/-- C4 as amended: for every RPC error, in every operation dispatched
through `main`'s error-printing harness (`send-sol`, `create-token-mint`,
`create-token-account`, `mint-tokens`, `create-token-metadata`) a failing
ledger call makes the operation print a formatted failure message and
abort, and the process exits normally; the balance query inside
`check_balance`, however, is unwrapped and panics on error (see the
counterexample). -/
theorem rpc_error_printed_and_normal_exit
    (e : RpcError) (keys : Nat → Keypair) (elapsed : Nat → Nat)
    (derive : Pubkey → Pubkey → Pubkey) (fuel : Nat) :
    main_run flags_send_sol
        ⟨cfg_ok, rpc_env_err e, keys, elapsed, derive⟩ fuel =
      some ⟨["🔑 Our public key is: 11111111111111111111111111111111",
             "💸 Attempting to send 0.01 SOL to " ++
               "8cUNp6LJGfjN3M1mwk537CfY2WBtYUYQNnf4hVtPx7AB...",
             "📝 memo is: Hello from Solana!",
             "Sending SOL failed due to: " ++ e.debug],
            [RpcCall.getLatestBlockhash], .ok⟩ ∧
    main_run flags_create_token_mint
        ⟨cfg_ok, rpc_env_err e, keys, elapsed, derive⟩ fuel =
      some ⟨["🔑 Our public key is: 11111111111111111111111111111111",
             "Creating token mint failed due to: " ++ e.debug],
            [RpcCall.getMinimumBalance], .ok⟩ ∧
    main_run flags_create_token_account
        ⟨cfg_ok, rpc_env_err e, keys, elapsed, derive⟩ fuel =
      some ⟨["🔑 Our public key is: 11111111111111111111111111111111",
             "Creating token account failed due to: " ++ e.debug],
            [RpcCall.getAccount, RpcCall.getLatestBlockhash], .ok⟩ ∧
    main_run flags_mint_tokens
        ⟨cfg_ok, rpc_env_err e, keys, elapsed, derive⟩ fuel =
      some ⟨["Minting tokens failed due to: " ++ e.debug],
            [RpcCall.getLatestBlockhash], .ok⟩ ∧
    main_run flags_create_token_metadata
        ⟨cfg_ok, rpc_env_err e, keys, elapsed, derive⟩ fuel =
      some ⟨["Creating token metadata failed due to: " ++ e.debug],
            [RpcCall.getLatestBlockhash], .ok⟩ :=
  ⟨rfl, rfl, rfl, rfl, rfl⟩

/-- C8: with no operation flag set, `main` selects no branch: no keypair
is generated, no RPC call is made, nothing is printed, and the process
exits normally. -/
theorem no_flags_no_action (w : World) (fuel : Nat) :
    main_run Flags.none w fuel = some ⟨[], [], .ok⟩ := rfl

/-- C9: `main` runs exactly the operation of the first set flag in the
fixed priority order (generate-keypair, load-keypair, check-balance,
find-keypair, send-sol, create-token-mint, create-token-account,
mint-tokens, create-token-metadata); every other set flag is silently
ignored, and with no flag set nothing runs. -/
theorem main_runs_first_set_flag (flags : Flags) (w : World) (fuel : Nat) :
    main_run flags w fuel =
      match first_set_flag flags with
      | Option.none => some ⟨[], [], .ok⟩
      | some op => run_named_op op w fuel := by
  obtain ⟨g, l, c, f, s, m, a, t, d⟩ := flags
  cases g <;> cases l <;> cases c <;> cases f <;> cases s <;> cases m <;>
    cases a <;> cases t <;> cases d <;> rfl

/-- C10: the address `get_or_create_associated_token_account` returns on
success is always the externally derived associated token address, a
function of the recipient and mint only — in particular independent of
whether the account already existed; and when the account-existence query
succeeds, the call submits no transaction at all, its trace being the
single `getAccount` query, so repeated calls with the same arguments
return the same address with no side effects. -/
theorem ata_address_deterministic_and_idempotent
    (derive : Pubkey → Pubkey → Pubkey) (env : RpcEnv) (sender : Keypair)
    (mint recipient : Pubkey) :
    (∀ calls addr,
      get_or_create_associated_token_account derive env sender mint
          recipient = (calls, .ok addr) →
      addr = derive recipient mint) ∧
    (env.get_account (derive recipient mint) = .ok () →
      get_or_create_associated_token_account derive env sender mint
          recipient = ([.getAccount], .ok (derive recipient mint))) := by
  constructor
  · intro calls addr h
    simp only [get_or_create_associated_token_account] at h
    cases hacc : env.get_account (derive recipient mint) with
    | ok u =>
      rw [hacc] at h
      simp at h
      exact h.2.symm
    | error e1 =>
      rw [hacc] at h
      cases hbh : env.get_latest_blockhash with
      | error e2 => rw [hbh] at h; simp at h
      | ok bh =>
        rw [hbh] at h
        cases hsc : env.send_and_confirm with
        | error e3 => rw [hsc] at h; simp at h
        | ok sig => rw [hsc] at h; simp at h; exact h.2.symm
  · intro hex
    simp only [get_or_create_associated_token_account]
    rw [hex]

/-- Witness for C10: the account already exists, so the call is a single
existence query returning the derived address. -/
theorem ata_address_deterministic_and_idempotent_witness :
    get_or_create_associated_token_account (fun r m => r ++ m) rpc_env_ok
        ⟨List.replicate 64 0⟩ [1] [2] =
      ([.getAccount], .ok ([2] ++ [1])) :=
  (ata_address_deterministic_and_idempotent (fun r m => r ++ m) rpc_env_ok
    ⟨List.replicate 64 0⟩ [1] [2]).2 rfl

end SolanaCli
